import Mathlib

/-!
Shallow embedding of the payment-instruction parser and settlement evaluator
from `src/services/handle-payment/handle-instruction.js`, the strict parser
variant in `src/unnamed/part_001`, and the request handler glue
(`mapValidationErrors`, validation-failure path).

JavaScript numbers are modelled as exact rationals; `NaN` and the infinities
are both modelled as `none` of `Option ℚ`, which is observationally adequate
here because every use site (the amount check and the date round-trip check)
rejects `NaN` and non-integral/infinite values through the same branch.
Dates follow the ECMAScript UTC calendar (proleptic Gregorian with the
0..99 → 1900+y year quirk of `Date.UTC` and the ±100,000,000-day time range).
-/

/-- Whitespace test used for tokenization, modelling the regex class \s. -/
def isWs (c : Char) : Bool := c.isWhitespace

/-- Tokenizer worker: splits a character list into maximal runs of
non-whitespace characters. -/
def splitWsAux : List Char → List Char → List (List Char)
  | [], acc => if acc = [] then [] else [acc.reverse]
  | c :: cs, acc =>
      if isWs c then
        if acc = [] then splitWsAux cs [] else acc.reverse :: splitWsAux cs []
      else splitWsAux cs (c :: acc)

/-- Model of `instruction.trim().split(/\s+/)` on a non-all-whitespace string:
the list of whitespace-separated tokens.  (On an all-whitespace string the JS
expression yields `[""]` while this yields `[]`; both make `upperWords[0]`
fail the leading-keyword check, so the parser behaves identically.) -/
def tokenize (s : String) : List String :=
  (splitWsAux s.data []).map String.mk

/-- Model of JavaScript `String.prototype.toUpperCase` on the ASCII fragment
relevant to the keyword and currency tokens. -/
def jsUpper (s : String) : String := String.mk (s.data.map Char.toUpper)

/-- Model of JavaScript `Array.prototype.indexOf`: index of the first
occurrence, `-1` when absent. -/
def jsIndexOf (l : List String) (x : String) : Int :=
  match l with
  | [] => -1
  | y :: ys =>
      if y = x then 0
      else
        let r := jsIndexOf ys x
        if r = -1 then -1 else r + 1

/-- Model of JavaScript indexing `l[i]`: `none` stands for `undefined`
(out of range or negative index). -/
def jsAt (l : List String) (i : Int) : Option String :=
  if i < 0 then none else l.get? i.toNat

/-- Digit run to its decimal value. -/
def digitsToNat (cs : List Char) : Nat :=
  cs.foldl (fun a c => a * 10 + (c.toNat - ('0').toNat)) 0

/-- Value of a digit in radix 16 (also covers radix 8 and 2 by bounding). -/
def hexDigitVal (c : Char) : Option Nat :=
  if c.isDigit then some (c.toNat - ('0').toNat)
  else if 'a' ≤ c ∧ c ≤ 'f' then some (c.toNat - ('a').toNat + 10)
  else if 'A' ≤ c ∧ c ≤ 'F' then some (c.toNat - ('A').toNat + 10)
  else none

/-- Radix-literal digits to a value, rejecting the empty run and any digit
at or above the radix. -/
def radixVal (radix : Nat) (cs : List Char) : Option Nat :=
  match cs with
  | [] => none
  | _ =>
    cs.foldl
      (fun a c =>
        match a, hexDigitVal c with
        | some v, some d => if d < radix then some (v * radix + d) else none
        | _, _ => none)
      (some 0)

/-- Exponent suffix of a decimal literal: empty means exponent 0; otherwise
an e or E, an optional sign, and a nonempty digit run.  Anything else is a
syntax error (`none`). -/
def expVal (cs : List Char) : Option Int :=
  match cs with
  | [] => some 0
  | e :: rest =>
      if e = 'e' ∨ e = 'E' then
        match rest with
        | '+' :: ds => if ds ≠ [] ∧ ds.all Char.isDigit then some (digitsToNat ds) else none
        | '-' :: ds => if ds ≠ [] ∧ ds.all Char.isDigit then some (-(digitsToNat ds : Int)) else none
        | ds => if ds ≠ [] ∧ ds.all Char.isDigit then some (digitsToNat ds) else none
      else none

/-- Power of ten as a rational, by plain recursion so that the kernel can
evaluate it. -/
def pow10 : Nat → ℚ
  | 0 => 1
  | n + 1 => pow10 n * 10

/-- Scale a rational by a signed power of ten. -/
def scalePow10 (v : ℚ) (e : Int) : ℚ :=
  if 0 ≤ e then v * pow10 e.toNat else v / pow10 (-e).toNat

/-- Unsigned decimal literal: digits with an optional fractional part and an
optional exponent, requiring at least one mantissa digit. -/
def decimalVal (cs : List Char) : Option ℚ :=
  let ip := cs.takeWhile Char.isDigit
  let r1 := cs.dropWhile Char.isDigit
  match r1 with
  | '.' :: r2 =>
      let fp := r2.takeWhile Char.isDigit
      let r3 := r2.dropWhile Char.isDigit
      if ip = [] ∧ fp = [] then none
      else
        match expVal r3 with
        | some e =>
            some (scalePow10 ((digitsToNat ip : ℚ) +
              (digitsToNat fp : ℚ) / pow10 fp.length) e)
        | none => none
  | _ =>
      if ip = [] then none
      else
        match expVal r1 with
        | some e => some (scalePow10 (digitsToNat ip : ℚ) e)
        | none => none

/-- Model of the JavaScript `Number(string)` conversion on the decimal,
hexadecimal, octal and binary literal grammar.  `none` models `NaN`
(and the infinities, see the module comment); the empty or all-whitespace
string converts to `0`. -/
def jsNumber (s : String) : Option ℚ :=
  let cs := ((s.data.dropWhile isWs).reverse.dropWhile isWs).reverse
  match cs with
  | [] => some 0
  | '0' :: 'x' :: rest => (radixVal 16 rest).map (fun n => (n : ℚ))
  | '0' :: 'X' :: rest => (radixVal 16 rest).map (fun n => (n : ℚ))
  | '0' :: 'o' :: rest => (radixVal 8 rest).map (fun n => (n : ℚ))
  | '0' :: 'O' :: rest => (radixVal 8 rest).map (fun n => (n : ℚ))
  | '0' :: 'b' :: rest => (radixVal 2 rest).map (fun n => (n : ℚ))
  | '0' :: 'B' :: rest => (radixVal 2 rest).map (fun n => (n : ℚ))
  | '+' :: rest => decimalVal rest
  | '-' :: rest => (decimalVal rest).map Neg.neg
  | _ => decimalVal cs

/-- Conversion of `undefined`-or-string to a number: `Number(undefined)` is
`NaN`. -/
def jsNumberU (o : Option String) : Option ℚ :=
  match o with
  | none => none
  | some s => jsNumber s

/-- Truncation toward zero, as the ECMAScript ToIntegerOrInfinity step does
on finite values. -/
def jsTrunc (q : ℚ) : Int := if 0 ≤ q then ⌊q⌋ else ⌈q⌉

/-- Proleptic Gregorian leap-year test. -/
def isLeapYear (y : Int) : Bool := (y % 4 = 0 ∧ y % 100 ≠ 0) ∨ y % 400 = 0

/-- Number of days in a month of a given year. -/
def daysInMonth (y m : Int) : Int :=
  if m = 2 then (if isLeapYear y then 29 else 28)
  else if m = 4 ∨ m = 6 ∨ m = 9 ∨ m = 11 then 30
  else 31

/-- Days since 1970-01-01 of a civil date with month in 1..12 (the
days-from-civil algorithm on the proleptic Gregorian calendar). -/
def daysFromCivil (y m d : Int) : Int :=
  let y1 := if m ≤ 2 then y - 1 else y
  let era := y1.fdiv 400
  let yoe := y1 - era * 400
  let mp := if 2 < m then m - 3 else m + 9
  let doy := (153 * mp + 2).fdiv 5 + d - 1
  let doe := yoe * 365 + yoe.fdiv 4 - yoe.fdiv 100 + doy
  era * 146097 + doe - 719468

/-- Civil date (year, month 1..12, day) of a count of days since
1970-01-01. -/
def civilFromDays (z0 : Int) : Int × Int × Int :=
  let z := z0 + 719468
  let era := z.fdiv 146097
  let doe := z - era * 146097
  let yoe := (doe - doe.fdiv 1460 + doe.fdiv 36524 - doe.fdiv 146097).fdiv 365
  let y := yoe + era * 400
  let doy := doe - (365 * yoe + yoe.fdiv 4 - yoe.fdiv 100)
  let mp := (5 * doy + 2).fdiv 153
  let d := doy - (153 * mp + 2).fdiv 5 + 1
  let m := if mp < 10 then mp + 3 else mp - 9
  (if m ≤ 2 then y + 1 else y, m, d)

/-- Model of `Date.UTC(y, m0, d)` followed by reading the UTC fields:
applies the 0..99 → 1900+y year quirk, normalizes an arbitrary month index
and day, and yields the civil date of the result, or `none` when the time
value falls outside the representable ±100,000,000-day range (an Invalid
Date, whose UTC fields are `NaN`). -/
def jsUtcNormalize (y m0 d : Int) : Option (Int × Int × Int) :=
  let yq := if 0 ≤ y ∧ y ≤ 99 then 1900 + y else y
  let yy := yq + m0.fdiv 12
  let mm := m0.fmod 12 + 1
  let days := daysFromCivil yy mm 1 + (d - 1)
  if days < -(100000000 : Int) ∨ (100000000 : Int) < days then none
  else some (civilFromDays days)

/-- Model of `str.split(char)`: splits at every separator, keeping empty
pieces, with `[""]` for the empty string. -/
def splitOnDash : List Char → List (List Char)
  | [] => [[]]
  | c :: rest =>
      if c = '-' then [] :: splitOnDash rest
      else
        match splitOnDash rest with
        | [] => [[c]]
        | p :: ps => (c :: p) :: ps

/-- Model of the date round-trip check in the parser: split the token on
dashes, convert the first three pieces with `Number`, build
`Date.UTC(y, m-1, d)` and require the UTC year/month/day read back to equal
the original numbers.  Any `NaN` piece, a missing piece, or an out-of-range
time value fails the comparison. -/
def dateTokenCheck (tok : String) : Bool :=
  let parts := (splitOnDash tok.data).map (fun p => jsNumber (String.mk p))
  match parts.get? 0, parts.get? 1, parts.get? 2 with
  | some (some yq), some (some mq), some (some dq) =>
      match jsUtcNormalize (jsTrunc yq) (jsTrunc (mq - 1)) (jsTrunc dq) with
      | none => false
      | some (y, m, d) => decide ((y : ℚ) = yq ∧ (m : ℚ) = mq ∧ (d : ℚ) = dq)
  | _, _, _ => false

set_option maxRecDepth 10000

example : dateTokenCheck "2024-02-29" = true := by with_unfolding_all rfl
example : dateTokenCheck "2025-02-30" = false := by with_unfolding_all rfl
example : dateTokenCheck "2023-02-29" = false := by with_unfolding_all rfl

namespace PaymentMessages

/-- Modelled from the spec: the module services/messages/payment required by
the handlers is not in the sources, so each message constant is modelled as a
distinct symbolic string named after its key. -/
def MALFORMED_INSTRUCTION : String := "MALFORMED_INSTRUCTION"

/-- Modelled from the spec: see MALFORMED_INSTRUCTION. -/
def POSITIVE_INT_ERROR : String := "POSITIVE_INT_ERROR"

/-- Modelled from the spec: see MALFORMED_INSTRUCTION. -/
def UNSUPPORTED_CURRENCY : String := "UNSUPPORTED_CURRENCY"

/-- Modelled from the spec: see MALFORMED_INSTRUCTION. -/
def INVALID_INSTRUCTION_FORMAT : String := "INVALID_INSTRUCTION_FORMAT"

/-- Modelled from the spec: see MALFORMED_INSTRUCTION. -/
def SAME_ACCOUNT_ERROR : String := "SAME_ACCOUNT_ERROR"

/-- Modelled from the spec: see MALFORMED_INSTRUCTION. -/
def INVALID_DATE_FORMAT : String := "INVALID_DATE_FORMAT"

/-- Modelled from the spec: section 4.2 fixes the pending reason text to
"transaction pending". -/
def TRANSACTION_PENDING : String := "transaction pending"

/-- Modelled from the spec: see MALFORMED_INSTRUCTION. -/
def ACCOUNT_NOT_FOUND : String := "ACCOUNT_NOT_FOUND"

/-- Modelled from the spec: see MALFORMED_INSTRUCTION. -/
def CURRENCY_MISMATCH : String := "CURRENCY_MISMATCH"

/-- Modelled from the spec: see MALFORMED_INSTRUCTION. -/
def INSUFFICIENT_FUNDS : String := "INSUFFICIENT_FUNDS"

/-- Modelled from the spec: see MALFORMED_INSTRUCTION. -/
def TRANSACTION_SUCCESSFUL : String := "TRANSACTION_SUCCESSFUL"

end PaymentMessages

namespace TRANSACTION_STATUS_CODE_MAPPING

/-- Status-code table imported from the external app-core package; each code
is modelled as a symbolic string named after its key, since the claims refer
to codes only by these names. -/
def MALFORMED_INSTRUCTION : String := "code MALFORMED_INSTRUCTION"

/-- Status code for a non-positive or non-integral amount. -/
def POSITIVE_INT_ERROR : String := "code POSITIVE_INT_ERROR"

/-- Status code for a currency outside the allow-list. -/
def UNSUPPORTED_CURRENCY : String := "code UNSUPPORTED_CURRENCY"

/-- Status code for identical debit and credit accounts. -/
def SAME_ACCOUNT_ERROR : String := "code SAME_ACCOUNT_ERROR"

/-- Status code for an invalid ON date. -/
def INVALID_DATE_FORMAT : String := "code INVALID_DATE_FORMAT"

/-- Status code for a deferred instruction. -/
def TRANSACTION_PENDING : String := "code TRANSACTION_PENDING"

/-- Status code for an unresolved account. -/
def ACCOUNT_NOT_FOUND : String := "code ACCOUNT_NOT_FOUND"

/-- Status code for a currency mismatch. -/
def CURRENCY_MISMATCH : String := "code CURRENCY_MISMATCH"

/-- Status code for insufficient funds. -/
def INSUFFICIENT_FUNDS : String := "code INSUFFICIENT_FUNDS"

/-- Status code for a settled transaction. -/
def TRANSACTION_SUCCESSFUL : String := "code TRANSACTION_SUCCESSFUL"

end TRANSACTION_STATUS_CODE_MAPPING

/-- Value thrown by the JavaScript code: either an application error built by
throwAppError with a message and a status code, or a runtime TypeError. -/
inductive JsThrow where
  | appError (message : String) (code : String)
  | typeError (message : String)
deriving DecidableEq, Repr

/-- Message carried by a thrown value, as read by err.message in the catch
block of the handler. -/
def JsThrow.message : JsThrow → String
  | .appError m _ => m
  | .typeError m => m

/-- Structured instruction produced by parseInstruction.  The last field is
named executeBy exactly as in the response literal of the source (the spec
calls it execute_by; see the claim about outcome flattening). -/
structure ParsedInstruction where
  type : String
  amount : ℚ
  currency : String
  debit_account : String
  credit_account : String
  executeBy : Option String
deriving DecidableEq, Repr

/-- Shared tail of every parser variant (identical source text in all three):
the optional ON date.  Looks up the token after the first ON, runs the UTC
round-trip check, and records the raw token as executeBy; with ON absent,
executeBy stays null.  When ON is the final token, the JS expression
date.split throws a TypeError on undefined. -/
def parseDateTail (words : List String) (type : String) (amount : ℚ)
    (currency : String) (fromAccount toAccount : String) :
    Except JsThrow ParsedInstruction :=
  let upperWords := words.map jsUpper
  let onIdx := jsIndexOf upperWords "ON"
  if onIdx = -1 then
    .ok ⟨type, amount, currency, fromAccount, toAccount, none⟩
  else
    match jsAt words (onIdx + 1) with
    | none => .error (.typeError "Cannot read properties of undefined (reading split)")
    | some date =>
        if dateTokenCheck date then
          .ok ⟨type, amount, currency, fromAccount, toAccount, some date⟩
        else
          .error (.appError PaymentMessages.INVALID_DATE_FORMAT
            TRANSACTION_STATUS_CODE_MAPPING.INVALID_DATE_FORMAT)

/-- Uppercased token list, modelling the upperWords array. -/
def upperOf (words : List String) : List String := words.map jsUpper

/-- Index of the first FROM keyword (case-insensitive), -1 when absent. -/
def fromIdxOf (words : List String) : Int := jsIndexOf (upperOf words) "FROM"

/-- Index of the first TO keyword (case-insensitive), -1 when absent. -/
def toIdxOf (words : List String) : Int := jsIndexOf (upperOf words) "TO"

/-- Index of the first ON keyword (case-insensitive), -1 when absent. -/
def onIdxOf (words : List String) : Int := jsIndexOf (upperOf words) "ON"

/-- Account token of the permissive parser: the token two places after the
FROM keyword when present, taken without checking an ACCOUNT keyword. -/
def fromAccountOf (words : List String) : Option String :=
  if fromIdxOf words ≠ -1 then jsAt words (fromIdxOf words + 2) else none

/-- Account token of the permissive parser two places after the TO
keyword. -/
def toAccountOf (words : List String) : Option String :=
  if toIdxOf words ≠ -1 then jsAt words (toIdxOf words + 2) else none

/-- Route stage of the permissive parser: both account tokens must be
present, must differ, and then the ON date tail runs. -/
def accountStage (words : List String) (type : String) (amount : ℚ)
    (currency : String) : Except JsThrow ParsedInstruction :=
  match fromAccountOf words, toAccountOf words with
  | some fa, some ta =>
      if fa = ta then
        .error (.appError PaymentMessages.SAME_ACCOUNT_ERROR
          TRANSACTION_STATUS_CODE_MAPPING.SAME_ACCOUNT_ERROR)
      else parseDateTail words type amount currency fa ta
  | _, _ =>
      .error (.appError PaymentMessages.INVALID_INSTRUCTION_FORMAT
        TRANSACTION_STATUS_CODE_MAPPING.MALFORMED_INSTRUCTION)

/-- Parser of src/services/handle-payment/handle-instruction.js over the
token list: leading keyword, positive integral amount, supported currency,
account tokens two places after the FROM and TO keywords, distinct accounts,
then the optional ON date. -/
def parseWords (words : List String) : Except JsThrow ParsedInstruction :=
  match jsAt (upperOf words) 0 with
  | none =>
      .error (.appError PaymentMessages.MALFORMED_INSTRUCTION
        TRANSACTION_STATUS_CODE_MAPPING.MALFORMED_INSTRUCTION)
  | some type =>
      if type ≠ "DEBIT" ∧ type ≠ "CREDIT" then
        .error (.appError PaymentMessages.MALFORMED_INSTRUCTION
          TRANSACTION_STATUS_CODE_MAPPING.MALFORMED_INSTRUCTION)
      else
        match jsNumberU (jsAt words 1) with
        | none =>
            .error (.appError PaymentMessages.POSITIVE_INT_ERROR
              TRANSACTION_STATUS_CODE_MAPPING.POSITIVE_INT_ERROR)
        | some amount =>
            if amount ≤ 0 ∨ ¬ amount.isInt then
              .error (.appError PaymentMessages.POSITIVE_INT_ERROR
                TRANSACTION_STATUS_CODE_MAPPING.POSITIVE_INT_ERROR)
            else
              match jsAt (upperOf words) 2 with
              | none =>
                  .error (.appError PaymentMessages.UNSUPPORTED_CURRENCY
                    TRANSACTION_STATUS_CODE_MAPPING.UNSUPPORTED_CURRENCY)
              | some currency =>
                  if ¬ (currency = "USD" ∨ currency = "NGN" ∨
                        currency = "GBP" ∨ currency = "GHS") then
                    .error (.appError PaymentMessages.UNSUPPORTED_CURRENCY
                      TRANSACTION_STATUS_CODE_MAPPING.UNSUPPORTED_CURRENCY)
                  else accountStage words type amount currency

/-- Parser entry point of handle-instruction.js on the raw instruction
string. -/
def parseInstruction (instruction : String) : Except JsThrow ParsedInstruction :=
  parseWords (tokenize instruction)

example :
    parseInstruction "DEBIT 100 USD FROM ACCOUNT A1 TO ACCOUNT A2" =
      .ok ⟨"DEBIT", 100, "USD", "A1", "A2", none⟩ := by with_unfolding_all rfl

example :
    parseInstruction "debit 250 usd from account X to account Y on 2024-02-29" =
      .ok ⟨"DEBIT", 250, "USD", "X", "Y", some "2024-02-29"⟩ := by
  with_unfolding_all rfl

namespace Part001

/-- Character allow-list for account identifiers, written exactly as the
allowedCharacters string of the strict parser variant. -/
def allowedCharacters : List Char :=
  "ABCDEFGHIJKLMNOPQRSTUVWXYZabcdefghijklmnopqrstuvwxyz0123456789-_.".data

/-- Test that every character of an account identifier is in the allow-list,
modelling the isValidAccount closure. -/
def isValidAccount (account : String) : Bool :=
  account.data.all (fun c => allowedCharacters.contains c)

/-- Account token resolution of the strict parser: for a keyword found at
index idx, requires a token at idx+2, the literal ACCOUNT at idx+1, and
yields the token at idx+2; otherwise the account stays null. -/
def resolveAccount (words : List String) (idx : Int) : Option String :=
  let upperWords := words.map jsUpper
  if idx = -1 then none
  else
    match jsAt upperWords (idx + 1), jsAt words (idx + 2) with
    | some kw, some acct => if kw = "ACCOUNT" then some acct else none
    | _, _ => none

/-- Test modelling the guard `fromAccount && !isValidAccount(fromAccount)`:
a resolved account whose identifier fails the character check. -/
def resolvedInvalid (o : Option String) : Bool :=
  match o with
  | some a => ¬ isValidAccount a
  | none => false

/-- Route-ordering check of the strict parser: for DEBIT the first FROM must
exist and come before the first TO, for CREDIT the first TO must exist and
come before the first FROM; a missing keyword also fails. -/
def routeOrderFails (type : String) (fromIdx toIdx : Int) : Bool :=
  (type = "DEBIT" ∧ (fromIdx = -1 ∨ toIdx = -1 ∨ fromIdx > toIdx)) ∨
  (type = "CREDIT" ∧ (toIdx = -1 ∨ fromIdx = -1 ∨ toIdx > fromIdx))

/-- Resolution stage of the strict parser: resolve both account tokens
behind their ACCOUNT keywords, reject an identifier outside the character
allow-list, require both accounts present and distinct, then run the shared
ON-date tail. -/
def resolutionStage (words : List String) (type : String) (amount : ℚ)
    (currency : String) : Except JsThrow ParsedInstruction :=
  if resolvedInvalid (resolveAccount words (fromIdxOf words)) then
    .error (.appError PaymentMessages.INVALID_INSTRUCTION_FORMAT
      TRANSACTION_STATUS_CODE_MAPPING.MALFORMED_INSTRUCTION)
  else if resolvedInvalid (resolveAccount words (toIdxOf words)) then
    .error (.appError PaymentMessages.INVALID_INSTRUCTION_FORMAT
      TRANSACTION_STATUS_CODE_MAPPING.MALFORMED_INSTRUCTION)
  else
    match resolveAccount words (fromIdxOf words),
          resolveAccount words (toIdxOf words) with
    | some fa, some ta =>
        if fa = ta then
          .error (.appError PaymentMessages.SAME_ACCOUNT_ERROR
            TRANSACTION_STATUS_CODE_MAPPING.SAME_ACCOUNT_ERROR)
        else parseDateTail words type amount currency fa ta
    | _, _ =>
        .error (.appError PaymentMessages.INVALID_INSTRUCTION_FORMAT
          TRANSACTION_STATUS_CODE_MAPPING.MALFORMED_INSTRUCTION)

/-- Route stage of the strict parser: the ordering check between the FROM
and TO keywords relative to the instruction type, then resolution. -/
def routeStage (words : List String) (type : String) (amount : ℚ)
    (currency : String) : Except JsThrow ParsedInstruction :=
  if routeOrderFails type (fromIdxOf words) (toIdxOf words) then
    .error (.appError PaymentMessages.MALFORMED_INSTRUCTION
      TRANSACTION_STATUS_CODE_MAPPING.MALFORMED_INSTRUCTION)
  else resolutionStage words type amount currency

/-- Strict parser variant of src/unnamed/part_001 over the token list: same
leading checks as the permissive parser, then the route-ordering check, the
ACCOUNT-keyword resolution, the identifier character check, presence and
distinctness of both accounts, and the shared ON-date tail. -/
def parseWords (words : List String) : Except JsThrow ParsedInstruction :=
  let upperWords := words.map jsUpper
  match jsAt upperWords 0 with
  | none =>
      .error (.appError PaymentMessages.MALFORMED_INSTRUCTION
        TRANSACTION_STATUS_CODE_MAPPING.MALFORMED_INSTRUCTION)
  | some type =>
      if type ≠ "DEBIT" ∧ type ≠ "CREDIT" then
        .error (.appError PaymentMessages.MALFORMED_INSTRUCTION
          TRANSACTION_STATUS_CODE_MAPPING.MALFORMED_INSTRUCTION)
      else
        match jsNumberU (jsAt words 1) with
        | none =>
            .error (.appError PaymentMessages.POSITIVE_INT_ERROR
              TRANSACTION_STATUS_CODE_MAPPING.POSITIVE_INT_ERROR)
        | some amount =>
            if amount ≤ 0 ∨ ¬ amount.isInt then
              .error (.appError PaymentMessages.POSITIVE_INT_ERROR
                TRANSACTION_STATUS_CODE_MAPPING.POSITIVE_INT_ERROR)
            else
              match jsAt upperWords 2 with
              | none =>
                  .error (.appError PaymentMessages.UNSUPPORTED_CURRENCY
                    TRANSACTION_STATUS_CODE_MAPPING.UNSUPPORTED_CURRENCY)
              | some currency =>
                  if ¬ (currency = "USD" ∨ currency = "NGN" ∨
                        currency = "GBP" ∨ currency = "GHS") then
                    .error (.appError PaymentMessages.UNSUPPORTED_CURRENCY
                      TRANSACTION_STATUS_CODE_MAPPING.UNSUPPORTED_CURRENCY)
                  else routeStage words type amount currency

/-- Strict parser entry point on the raw instruction string. -/
def parseInstruction (instruction : String) : Except JsThrow ParsedInstruction :=
  Part001.parseWords (tokenize instruction)

end Part001

example :
    Part001.parseInstruction "CREDIT 100 USD TO ACCOUNT A2 FROM ACCOUNT A1" =
      .ok ⟨"CREDIT", 100, "USD", "A1", "A2", none⟩ := by with_unfolding_all rfl

example :
    Part001.parseInstruction "CREDIT 100 USD FROM ACCOUNT A1 TO ACCOUNT A2" =
      .error (.appError PaymentMessages.MALFORMED_INSTRUCTION
        TRANSACTION_STATUS_CODE_MAPPING.MALFORMED_INSTRUCTION) := by
  with_unfolding_all rfl

/-- Account record supplied in the request body, after structural
validation: an identifier, a balance and a currency code. -/
structure Account where
  id : String
  balance : ℚ
  currency : String
deriving DecidableEq, Repr

/-- Account object as it appears in an outcome: the settlement branch adds a
balance_before key to the copies it makes, while failure branches echo the
input objects, which lack that key (modelled as none). -/
structure OutAccount where
  id : String
  balance : ℚ
  currency : String
  balance_before : Option ℚ
deriving DecidableEq, Repr

/-- View of an input account as an outcome account (no balance_before
key). -/
def Account.toOut (a : Account) : OutAccount := ⟨a.id, a.balance, a.currency, none⟩

/-- Outcome record returned by handlePaymentInstruction.  The parsed fields
are optional because the parse-failure branch nulls all of them.  The sixth
field keeps the source name executeBy of the spread parsed object; the key
naming of each branch is modelled separately by the response-key lists
below. -/
structure Outcome where
  type : Option String
  amount : Option ℚ
  currency : Option String
  debit_account : Option String
  credit_account : Option String
  executeBy : Option String
  status : String
  status_reason : String
  status_code : String
  accounts : List OutAccount
deriving DecidableEq, Repr

/-- Outcome built by spreading the parsed instruction and adding the status
fields, modelling the object literals written as spread of parsed. -/
def spreadParsed (p : ParsedInstruction) (status reason code : String)
    (accs : List OutAccount) : Outcome :=
  ⟨some p.type, some p.amount, some p.currency, some p.debit_account,
    some p.credit_account, p.executeBy, status, reason, code, accs⟩

/-- Model of the ECMAScript Date constructor on the stored date string,
restricted to the date-only ISO form YYYY-MM-DD with a valid civil date; the
result is the UTC day count.  Every other string is modelled as an Invalid
Date (none), whose comparison below is false.  The model takes the current
day (new Date() truncated by setHours(0,0,0,0)) as the parameter today, with
the process timezone taken as UTC. -/
def jsDateParse (s : String) : Option Int :=
  match s.data with
  | [y1, y2, y3, y4, h1, m1, m2, h2, d1, d2] =>
      if (h1 = '-' ∧ h2 = '-' ∧
          [y1, y2, y3, y4, m1, m2, d1, d2].all Char.isDigit) then
        let y : Int := digitsToNat [y1, y2, y3, y4]
        let m : Int := digitsToNat [m1, m2]
        let d : Int := digitsToNat [d1, d2]
        if 1 ≤ m ∧ m ≤ 12 ∧ 1 ≤ d ∧ d ≤ daysInMonth y m then
          some (daysFromCivil y m d)
        else none
      else none
  | _ => none

/-- Schedule check of the evaluator: executeBy is truthy and the parsed
execution date is strictly later than today.  An Invalid Date compares as
NaN, hence false. -/
def executeLater (p : ParsedInstruction) (today : Int) : Bool :=
  match p.executeBy with
  | none => false
  | some s =>
      match jsDateParse s with
      | none => false
      | some execDate => today < execDate

/-- Account resolution, currency check, funds check and settlement: the part
of handlePaymentInstruction after the execution-date check. -/
def settleAccounts (parsed : ParsedInstruction) (accounts : List Account) : Outcome :=
  match accounts.find? (fun a => a.id = parsed.debit_account),
        accounts.find? (fun a => a.id = parsed.credit_account) with
  | some debitAcc, some creditAcc =>
      if jsUpper debitAcc.currency ≠ parsed.currency ∨
         jsUpper creditAcc.currency ≠ parsed.currency then
        spreadParsed parsed "failed" PaymentMessages.CURRENCY_MISMATCH
          TRANSACTION_STATUS_CODE_MAPPING.CURRENCY_MISMATCH
          [debitAcc.toOut, creditAcc.toOut]
      else if debitAcc.balance < parsed.amount then
        spreadParsed parsed "failed" PaymentMessages.INSUFFICIENT_FUNDS
          TRANSACTION_STATUS_CODE_MAPPING.INSUFFICIENT_FUNDS
          [debitAcc.toOut, creditAcc.toOut]
      else
        spreadParsed parsed "successful" PaymentMessages.TRANSACTION_SUCCESSFUL
          TRANSACTION_STATUS_CODE_MAPPING.TRANSACTION_SUCCESSFUL
          [⟨debitAcc.id, debitAcc.balance - parsed.amount, debitAcc.currency,
              some debitAcc.balance⟩,
           ⟨creditAcc.id, creditAcc.balance + parsed.amount, creditAcc.currency,
              some creditAcc.balance⟩]
  | _, _ =>
      spreadParsed parsed "failed" PaymentMessages.ACCOUNT_NOT_FOUND
        TRANSACTION_STATUS_CODE_MAPPING.ACCOUNT_NOT_FOUND
        ((accounts.filter (fun a =>
            a.id = parsed.debit_account ∨ a.id = parsed.credit_account)).map
          Account.toOut)

/-- Outcome of the catch block converting a parser throw into a failed
outcome with nulled instruction fields. -/
def parseFailureOutcome (e : JsThrow) : Outcome :=
  ⟨none, none, none, none, none, none, "failed", e.message,
    TRANSACTION_STATUS_CODE_MAPPING.MALFORMED_INSTRUCTION, []⟩

/-- Evaluator of handle-instruction.js after body validation: the extra
sanity check (an empty instruction string is the only falsy value the
validated shapes admit, a validated accounts array being always truthy),
parsing with its catch block, the execution-date check, then account
resolution and settlement. -/
def handlePaymentInstruction (accounts : List Account) (instruction : String)
    (today : Int) : Outcome :=
  if instruction = "" then
    ⟨none, none, none, none, none, none, "failed",
      "Malformed request: missing accounts or instruction", "SY03", []⟩
  else
    match parseInstruction instruction with
    | .error e => parseFailureOutcome e
    | .ok parsed =>
        if executeLater parsed today then
          spreadParsed parsed "pending" PaymentMessages.TRANSACTION_PENDING
            TRANSACTION_STATUS_CODE_MAPPING.TRANSACTION_PENDING []
        else settleAccounts parsed accounts

example :
    handlePaymentInstruction
      [⟨"A1", 200, "USD"⟩, ⟨"A2", 50, "USD"⟩]
      "DEBIT 100 USD FROM ACCOUNT A1 TO ACCOUNT A2" 20000 =
    ⟨some "DEBIT", some 100, some "USD", some "A1", some "A2", none,
      "successful", PaymentMessages.TRANSACTION_SUCCESSFUL,
      TRANSACTION_STATUS_CODE_MAPPING.TRANSACTION_SUCCESSFUL,
      [⟨"A1", 100, "USD", some 200⟩, ⟨"A2", 150, "USD", some 50⟩]⟩ := by
  with_unfolding_all rfl

/-- Error record produced by the schema validator for one failed field. -/
structure ValidationError where
  message : String
deriving DecidableEq, Repr

/-- Minimal JavaScript value universe for the validation-failure path of the
handler: null, a string, or an array of strings. -/
inductive JsValue where
  | vnull
  | vstr (s : String)
  | varr (xs : List String)
deriving DecidableEq, Repr

/-- Model of the member call value.join(sep): Array.prototype.join is defined
on arrays only; on null the member access itself throws, and on a string the
member is undefined, so the call throws a TypeError either way. -/
def jsJoin (v : JsValue) (sep : String) : Except JsThrow String :=
  match v with
  | .varr xs => .ok (String.intercalate sep xs)
  | .vstr _ => .error (.typeError "readable.join is not a function")
  | .vnull => .error (.typeError "Cannot read properties of null (reading join)")

/-- Model of mapValidationErrors: null for an empty list, otherwise only the
first message, as a plain string. -/
def mapValidationErrors (errors : List ValidationError) : JsValue :=
  match errors with
  | [] => .vnull
  | e :: _ => .vstr e.message

/-- Result of validator.validate on the request body: either an error list,
or the validated accounts plus instruction.  The schema validation itself is
an external collaborator. -/
inductive ValidationResult where
  | failed (errors : List ValidationError)
  | valid (accounts : List Account) (instruction : String)

/-- Top of handlePaymentInstruction including the validation-failure branch:
on error it maps the errors, calls join on the result and would pass the
joined string to throwAppError; otherwise it runs the evaluator.  A thrown
value is modelled as the error of the Except. -/
def handleWithValidation (result : ValidationResult) (today : Int) :
    Except JsThrow Outcome :=
  match result with
  | .failed errors =>
      match jsJoin (mapValidationErrors errors) "; " with
      | .error te => .error te
      | .ok readable => .error (.appError readable "")
  | .valid accounts instruction =>
      .ok (handlePaymentInstruction accounts instruction today)

/-- Keys of the response literal returned by parseInstruction (source lines
104 to 111): note the camel-case executeBy. -/
def parsedResponseKeys : List String :=
  ["type", "amount", "currency", "debit_account", "credit_account", "executeBy"]

/-- Keys of every evaluator outcome built by spreading the parsed
instruction (the pending, account-not-found, currency-mismatch,
insufficient-funds and successful branches): the keys of parsed followed by
the four status fields. -/
def evaluatorOutcomeKeys : List String :=
  parsedResponseKeys ++ ["status", "status_reason", "status_code", "accounts"]

/-- Keys of the two parse-failure response literals of the handler, which
write the snake-case execute_by explicitly. -/
def parseFailureOutcomeKeys : List String :=
  ["type", "amount", "currency", "debit_account", "credit_account",
    "execute_by", "status", "status_reason", "status_code", "accounts"]

lemma parse_ok_ne_empty {s : String} {p : ParsedInstruction}
    (h : parseInstruction s = .ok p) : s ≠ "" := by
  intro he
  subst he
  have hv : parseInstruction "" =
      .error (.appError PaymentMessages.MALFORMED_INSTRUCTION
        TRANSACTION_STATUS_CODE_MAPPING.MALFORMED_INSTRUCTION) := by
    with_unfolding_all rfl
  rw [hv] at h
  exact Except.noConfusion h

lemma handle_parse_ok {accounts : List Account} {instruction : String}
    {today : Int} {parsed : ParsedInstruction}
    (hp : parseInstruction instruction = .ok parsed) :
    handlePaymentInstruction accounts instruction today =
      if executeLater parsed today then
        spreadParsed parsed "pending" PaymentMessages.TRANSACTION_PENDING
          TRANSACTION_STATUS_CODE_MAPPING.TRANSACTION_PENDING []
      else settleAccounts parsed accounts := by
  unfold handlePaymentInstruction
  rw [if_neg (parse_ok_ne_empty hp), hp]

/-- C2: for a parsed instruction that is not deferred, whose debit and
credit accounts resolve among the supplied accounts with matching currency,
and whose debit balance covers the amount, the outcome is successful with
code TRANSACTION_SUCCESSFUL and its accounts are exactly the updated debit
and credit copies: each records balance_before as the original balance, the
debit balance decreases by the amount and the credit balance increases by
it. -/
theorem settlement_success
    (accounts : List Account) (instruction : String) (today : Int)
    (parsed : ParsedInstruction) (debitAcc creditAcc : Account)
    (hp : parseInstruction instruction = .ok parsed)
    (hnd : executeLater parsed today = false)
    (hd : accounts.find? (fun a => a.id = parsed.debit_account) = some debitAcc)
    (hc : accounts.find? (fun a => a.id = parsed.credit_account) = some creditAcc)
    (hdc : jsUpper debitAcc.currency = parsed.currency)
    (hcc : jsUpper creditAcc.currency = parsed.currency)
    (hbal : parsed.amount ≤ debitAcc.balance) :
    handlePaymentInstruction accounts instruction today =
      spreadParsed parsed "successful" PaymentMessages.TRANSACTION_SUCCESSFUL
        TRANSACTION_STATUS_CODE_MAPPING.TRANSACTION_SUCCESSFUL
        [⟨debitAcc.id, debitAcc.balance - parsed.amount, debitAcc.currency,
            some debitAcc.balance⟩,
         ⟨creditAcc.id, creditAcc.balance + parsed.amount, creditAcc.currency,
            some creditAcc.balance⟩] := by
  rw [handle_parse_ok hp, if_neg (by simp [hnd])]
  unfold settleAccounts
  rw [hd, hc]
  dsimp only
  rw [if_neg (by simp [hdc, hcc]), if_neg (not_lt.mpr hbal)]

/-- Witness for settlement_success at the concrete system-test input of the
spec: DEBIT 100 USD from A1 (balance 200) to A2 (balance 50) settles to
balances 100 and 150 with the originals recorded. -/
theorem settlement_success_witness :
    handlePaymentInstruction [⟨"A1", 200, "USD"⟩, ⟨"A2", 50, "USD"⟩]
        "DEBIT 100 USD FROM ACCOUNT A1 TO ACCOUNT A2" 20000 =
      spreadParsed ⟨"DEBIT", 100, "USD", "A1", "A2", none⟩ "successful"
        PaymentMessages.TRANSACTION_SUCCESSFUL
        TRANSACTION_STATUS_CODE_MAPPING.TRANSACTION_SUCCESSFUL
        [⟨"A1", 200 - 100, "USD", some 200⟩, ⟨"A2", 50 + 100, "USD", some 50⟩] := by
  exact settlement_success
    [⟨"A1", 200, "USD"⟩, ⟨"A2", 50, "USD"⟩]
    "DEBIT 100 USD FROM ACCOUNT A1 TO ACCOUNT A2" 20000
    ⟨"DEBIT", 100, "USD", "A1", "A2", none⟩ ⟨"A1", 200, "USD"⟩ ⟨"A2", 50, "USD"⟩
    (by with_unfolding_all rfl) (by with_unfolding_all rfl)
    (by with_unfolding_all rfl) (by with_unfolding_all rfl)
    (by with_unfolding_all rfl) (by with_unfolding_all rfl)
    (by norm_num)

/-- C7 counterexample: with three supplied accounts all named A2 and an
instruction debiting the missing A1, the ACCOUNT_NOT_FOUND outcome echoes
three accounts, not at most the two referenced ones, refuting the claim that
the accounts field always has 0, 1 or 2 entries. -/
theorem account_not_found_counterexample :
    (handlePaymentInstruction
        [⟨"A2", 5, "USD"⟩, ⟨"A2", 6, "USD"⟩, ⟨"A2", 7, "USD"⟩]
        "DEBIT 5 USD FROM ACCOUNT A1 TO ACCOUNT A2" 20000).status_code =
      TRANSACTION_STATUS_CODE_MAPPING.ACCOUNT_NOT_FOUND ∧
    (handlePaymentInstruction
        [⟨"A2", 5, "USD"⟩, ⟨"A2", 6, "USD"⟩, ⟨"A2", 7, "USD"⟩]
        "DEBIT 5 USD FROM ACCOUNT A1 TO ACCOUNT A2" 20000).accounts.length = 3 := by
  constructor
  · with_unfolding_all rfl
  · with_unfolding_all rfl

/-- C7 as amended: a parsed, non-deferred instruction whose debit or credit
identifier resolves to no supplied account yields a failed ACCOUNT_NOT_FOUND
outcome whose accounts field is exactly the supplied accounts whose id equals
the debit or credit identifier, in input order (hence 0, 1 or 2 entries
whenever the supplied ids are distinct). -/
theorem account_not_found_echo
    (accounts : List Account) (instruction : String) (today : Int)
    (parsed : ParsedInstruction)
    (hp : parseInstruction instruction = .ok parsed)
    (hnd : executeLater parsed today = false)
    (hmiss : accounts.find? (fun a => a.id = parsed.debit_account) = none ∨
      accounts.find? (fun a => a.id = parsed.credit_account) = none) :
    handlePaymentInstruction accounts instruction today =
      spreadParsed parsed "failed" PaymentMessages.ACCOUNT_NOT_FOUND
        TRANSACTION_STATUS_CODE_MAPPING.ACCOUNT_NOT_FOUND
        ((accounts.filter (fun a =>
            a.id = parsed.debit_account ∨ a.id = parsed.credit_account)).map
          Account.toOut) := by
  rw [handle_parse_ok hp, if_neg (by simp [hnd])]
  unfold settleAccounts
  rcases hmiss with hm | hm
  · rw [hm]
  · rw [hm]
    cases accounts.find? (fun a => a.id = parsed.debit_account) <;> rfl

/-- Witness for account_not_found_echo: the spec system test with only A2
supplied echoes exactly the found account A2. -/
theorem account_not_found_echo_witness :
    handlePaymentInstruction [⟨"A2", 50, "USD"⟩]
        "DEBIT 100 USD FROM ACCOUNT A1 TO ACCOUNT A2" 20000 =
      spreadParsed ⟨"DEBIT", 100, "USD", "A1", "A2", none⟩ "failed"
        PaymentMessages.ACCOUNT_NOT_FOUND
        TRANSACTION_STATUS_CODE_MAPPING.ACCOUNT_NOT_FOUND
        (List.map Account.toOut
          (List.filter (fun a => a.id = "A1" ∨ a.id = "A2")
            [⟨"A2", 50, "USD"⟩])) := by
  exact account_not_found_echo [⟨"A2", 50, "USD"⟩]
    "DEBIT 100 USD FROM ACCOUNT A1 TO ACCOUNT A2" 20000
    ⟨"DEBIT", 100, "USD", "A1", "A2", none⟩
    (by with_unfolding_all rfl) (by with_unfolding_all rfl)
    (Or.inl (by with_unfolding_all rfl))

/-- C6: the evaluator outcomes spread the parsed instruction at top level,
but the parsed response names its date field executeBy, so every such
outcome carries the keys type, amount, currency, debit_account and
credit_account yet an executeBy key instead of the execute_by the spec
names (the snake-case key appears only in the parse-failure literals),
refuting the flattened execute_by field. -/
theorem outcome_key_flattening :
    "type" ∈ evaluatorOutcomeKeys ∧ "amount" ∈ evaluatorOutcomeKeys ∧
    "currency" ∈ evaluatorOutcomeKeys ∧ "debit_account" ∈ evaluatorOutcomeKeys ∧
    "credit_account" ∈ evaluatorOutcomeKeys ∧ "executeBy" ∈ evaluatorOutcomeKeys ∧
    "execute_by" ∉ evaluatorOutcomeKeys ∧ "execute_by" ∈ parseFailureOutcomeKeys := by
  with_unfolding_all decide

/-- C10: a request body failing structural validation makes the handler
throw a TypeError rather than a classified error or an outcome:
mapValidationErrors yields the first error message as a plain string and the
subsequent join call on that string is not a function. -/
theorem validation_failure_typeerror
    (e : ValidationError) (es : List ValidationError) (today : Int) :
    mapValidationErrors (e :: es) = .vstr e.message ∧
    handleWithValidation (.failed (e :: es)) today =
      .error (.typeError "readable.join is not a function") := by
  exact ⟨rfl, rfl⟩

lemma parseDateTail_error_message {words : List String} {t : String} {a : ℚ}
    {c fa ta : String} {e : JsThrow}
    (h : parseDateTail words t a c fa ta = .error e) : e.message ≠ "" := by
  unfold parseDateTail at h
  dsimp only at h
  repeat' split at h
  all_goals first
    | exact Except.noConfusion h
    | (injection h with h1; subst h1; decide)

lemma accountStage_error_message {words : List String} {t : String} {a : ℚ}
    {c : String} {e : JsThrow}
    (h : accountStage words t a c = .error e) : e.message ≠ "" := by
  unfold accountStage at h
  repeat' split at h
  all_goals first
    | exact Except.noConfusion h
    | exact parseDateTail_error_message h
    | (injection h with h1; subst h1; decide)

lemma parseWords_error_message {words : List String} {e : JsThrow}
    (h : parseWords words = .error e) : e.message ≠ "" := by
  unfold parseWords at h
  repeat' split at h
  all_goals first
    | exact Except.noConfusion h
    | exact accountStage_error_message h
    | (injection h with h1; subst h1; decide)

/-- C9: on a validated body the evaluator never throws: the handler wraps
its result as a plain return value for every accounts list, instruction
string and current day, and every branch produces an outcome whose status is
one of pending, failed or successful with a nonempty status reason and
status code. -/
theorem evaluator_total (accounts : List Account) (instruction : String)
    (today : Int) :
    handleWithValidation (.valid accounts instruction) today =
      .ok (handlePaymentInstruction accounts instruction today) ∧
    ((handlePaymentInstruction accounts instruction today).status = "pending" ∨
      (handlePaymentInstruction accounts instruction today).status = "failed" ∨
      (handlePaymentInstruction accounts instruction today).status = "successful") ∧
    (handlePaymentInstruction accounts instruction today).status_reason ≠ "" ∧
    (handlePaymentInstruction accounts instruction today).status_code ≠ "" := by
  refine ⟨rfl, ?_⟩
  unfold handlePaymentInstruction
  split
  · exact ⟨Or.inr (Or.inl rfl), by decide, by decide⟩
  · split
    · rename_i e heq
      exact ⟨Or.inr (Or.inl rfl), parseWords_error_message heq,
        by dsimp only [parseFailureOutcome]; decide⟩
    · rename_i parsed heq
      split
      · exact ⟨Or.inl rfl, by dsimp only [spreadParsed]; decide,
          by dsimp only [spreadParsed]; decide⟩
      · unfold settleAccounts
        repeat' split
        all_goals refine ⟨?_, by dsimp only [spreadParsed]; decide,
          by dsimp only [spreadParsed]; decide⟩
        all_goals first
          | exact Or.inl rfl
          | exact Or.inr (Or.inl rfl)
          | exact Or.inr (Or.inr rfl)

/-- C3: a successfully parsed instruction whose executeBy denotes a date
strictly later than the current day yields a pending outcome with reason
"transaction pending" and an empty accounts list; when executeBy is null or
denotes a date at or before the current day, evaluation proceeds to account
resolution (the settleAccounts stage) instead. -/
theorem pending_deferral
    (accounts : List Account) (instruction : String) (today : Int)
    (parsed : ParsedInstruction)
    (hp : parseInstruction instruction = .ok parsed) :
    (∀ s execDate, parsed.executeBy = some s → jsDateParse s = some execDate →
      today < execDate →
      handlePaymentInstruction accounts instruction today =
        spreadParsed parsed "pending" "transaction pending"
          TRANSACTION_STATUS_CODE_MAPPING.TRANSACTION_PENDING []) ∧
    (parsed.executeBy = none ∨
        (∃ s execDate, parsed.executeBy = some s ∧ jsDateParse s = some execDate ∧
          execDate ≤ today) →
      handlePaymentInstruction accounts instruction today =
        settleAccounts parsed accounts) := by
  constructor
  · intro s execDate hs hdate hlt
    have hcond : executeLater parsed today = true := by
      unfold executeLater
      rw [hs]
      dsimp only
      rw [hdate]
      simpa using hlt
    rw [handle_parse_ok hp, if_pos (by rw [hcond])]
    rfl
  · intro hnow
    have hcond : executeLater parsed today = false := by
      unfold executeLater
      rcases hnow with h0 | ⟨s, execDate, hs, hdate, hle⟩
      · rw [h0]
      · rw [hs]
        dsimp only
        rw [hdate]
        simpa using not_lt.mpr hle
    rw [handle_parse_ok hp, if_neg (by rw [hcond]; exact Bool.false_ne_true)]

/-- Witness for pending_deferral: the same transfer dated 2024-08-10 while
today is day 19900 (2024-06-26) is deferred pending with no account changes,
and with the date at or before today it settles instead. -/
theorem pending_deferral_witness :
    handlePaymentInstruction [⟨"A1", 200, "USD"⟩, ⟨"A2", 50, "USD"⟩]
        "DEBIT 100 USD FROM ACCOUNT A1 TO ACCOUNT A2 ON 2024-08-10" 19900 =
      spreadParsed ⟨"DEBIT", 100, "USD", "A1", "A2", some "2024-08-10"⟩
        "pending" "transaction pending"
        TRANSACTION_STATUS_CODE_MAPPING.TRANSACTION_PENDING [] := by
  exact (pending_deferral [⟨"A1", 200, "USD"⟩, ⟨"A2", 50, "USD"⟩]
    "DEBIT 100 USD FROM ACCOUNT A1 TO ACCOUNT A2 ON 2024-08-10" 19900
    ⟨"DEBIT", 100, "USD", "A1", "A2", some "2024-08-10"⟩
    (by with_unfolding_all rfl)).1 "2024-08-10" 19945
    rfl (by with_unfolding_all rfl) (by norm_num)

/-- C5: a parsed, non-deferred instruction whose accounts resolve with
matching currency but whose debit balance is strictly below the amount
yields a failed INSUFFICIENT_FUNDS outcome echoing the two resolved
accounts with their original balances and no balance_before key. -/
theorem insufficient_funds
    (accounts : List Account) (instruction : String) (today : Int)
    (parsed : ParsedInstruction) (debitAcc creditAcc : Account)
    (hp : parseInstruction instruction = .ok parsed)
    (hnd : executeLater parsed today = false)
    (hd : accounts.find? (fun a => a.id = parsed.debit_account) = some debitAcc)
    (hc : accounts.find? (fun a => a.id = parsed.credit_account) = some creditAcc)
    (hdc : jsUpper debitAcc.currency = parsed.currency)
    (hcc : jsUpper creditAcc.currency = parsed.currency)
    (hbal : debitAcc.balance < parsed.amount) :
    handlePaymentInstruction accounts instruction today =
      spreadParsed parsed "failed" PaymentMessages.INSUFFICIENT_FUNDS
        TRANSACTION_STATUS_CODE_MAPPING.INSUFFICIENT_FUNDS
        [⟨debitAcc.id, debitAcc.balance, debitAcc.currency, none⟩,
         ⟨creditAcc.id, creditAcc.balance, creditAcc.currency, none⟩] := by
  rw [handle_parse_ok hp, if_neg (by simp [hnd])]
  unfold settleAccounts
  rw [hd, hc]
  dsimp only
  rw [if_neg (by simp [hdc, hcc]), if_pos hbal]
  rfl

/-- Witness for insufficient_funds at the spec system test: the same
instruction with A1 holding only 50 fails with INSUFFICIENT_FUNDS and both
accounts echoed unchanged. -/
theorem insufficient_funds_witness :
    handlePaymentInstruction [⟨"A1", 50, "USD"⟩, ⟨"A2", 50, "USD"⟩]
        "DEBIT 100 USD FROM ACCOUNT A1 TO ACCOUNT A2" 20000 =
      spreadParsed ⟨"DEBIT", 100, "USD", "A1", "A2", none⟩ "failed"
        PaymentMessages.INSUFFICIENT_FUNDS
        TRANSACTION_STATUS_CODE_MAPPING.INSUFFICIENT_FUNDS
        [⟨"A1", 50, "USD", none⟩, ⟨"A2", 50, "USD", none⟩] := by
  exact insufficient_funds
    [⟨"A1", 50, "USD"⟩, ⟨"A2", 50, "USD"⟩]
    "DEBIT 100 USD FROM ACCOUNT A1 TO ACCOUNT A2" 20000
    ⟨"DEBIT", 100, "USD", "A1", "A2", none⟩ ⟨"A1", 50, "USD"⟩ ⟨"A2", 50, "USD"⟩
    (by with_unfolding_all rfl) (by with_unfolding_all rfl)
    (by with_unfolding_all rfl) (by with_unfolding_all rfl)
    (by with_unfolding_all rfl) (by with_unfolding_all rfl)
    (by norm_num)

lemma jsIndexOf_spec (l : List String) (x : String) :
    jsIndexOf l x = -1 ∨
      (0 ≤ jsIndexOf l x ∧ l.get? (jsIndexOf l x).toNat = some x) := by
  induction l with
  | nil => exact Or.inl rfl
  | cons y ys ih =>
      unfold jsIndexOf
      by_cases hy : y = x
      · rw [if_pos hy]
        exact Or.inr ⟨le_refl 0, by simp [hy]⟩
      · rw [if_neg hy]
        dsimp only
        rcases ih with h1 | ⟨hge, hget⟩
        · rw [h1]
          simp
        · have hne : jsIndexOf ys x ≠ -1 := by omega
          rw [if_neg hne]
          refine Or.inr ⟨by omega, ?_⟩
          have h2 : (jsIndexOf ys x + 1).toNat = (jsIndexOf ys x).toNat + 1 := by
            omega
          rw [h2]
          simpa using hget

lemma jsIndexOf_ne (l : List String) (x y : String) (hxy : x ≠ y)
    (hx : jsIndexOf l x ≠ -1) (hy : jsIndexOf l y ≠ -1) :
    jsIndexOf l x ≠ jsIndexOf l y := by
  intro heq
  rcases jsIndexOf_spec l x with h | ⟨_, hgx⟩
  · exact hx h
  rcases jsIndexOf_spec l y with h | ⟨_, hgy⟩
  · exact hy h
  rw [heq] at hgx
  rw [hgx] at hgy
  exact hxy (Option.some.inj hgy)

lemma parseWords_lead {words : List String} {ty : String} {a : ℚ} {cur : String}
    (h0 : jsAt (upperOf words) 0 = some ty)
    (hty : ty = "DEBIT" ∨ ty = "CREDIT")
    (h1 : jsNumberU (jsAt words 1) = some a)
    (hpos : 0 < a) (hint : a.isInt = true)
    (h2 : jsAt (upperOf words) 2 = some cur)
    (hcur : cur = "USD" ∨ cur = "NGN" ∨ cur = "GBP" ∨ cur = "GHS") :
    parseWords words = accountStage words ty a cur := by
  unfold parseWords
  rw [h0]
  dsimp only
  rw [if_neg (by rcases hty with h | h <;> simp [h]), h1]
  dsimp only
  rw [if_neg (by rw [not_or, not_le]; exact ⟨hpos, by simp [hint]⟩), h2]
  dsimp only
  rw [if_neg (by rcases hcur with h | h | h | h <;> simp [h])]

lemma part001_parseWords_lead {words : List String} {ty : String} {a : ℚ}
    {cur : String}
    (h0 : jsAt (upperOf words) 0 = some ty)
    (hty : ty = "DEBIT" ∨ ty = "CREDIT")
    (h1 : jsNumberU (jsAt words 1) = some a)
    (hpos : 0 < a) (hint : a.isInt = true)
    (h2 : jsAt (upperOf words) 2 = some cur)
    (hcur : cur = "USD" ∨ cur = "NGN" ∨ cur = "GBP" ∨ cur = "GHS") :
    Part001.parseWords words = Part001.routeStage words ty a cur := by
  unfold Part001.parseWords
  dsimp only
  rw [show (words.map jsUpper) = upperOf words from rfl, h0]
  dsimp only
  rw [if_neg (by rcases hty with h | h <;> simp [h]), h1]
  dsimp only
  rw [if_neg (by rw [not_or, not_le]; exact ⟨hpos, by simp [hint]⟩), h2]
  dsimp only
  rw [if_neg (by rcases hcur with h | h | h | h <;> simp [h])]

lemma parseDateTail_not_malformed {words : List String} {t : String} {a : ℚ}
    {cur fa ta cd : String}
    (h : parseDateTail words t a cur fa ta =
      .error (.appError PaymentMessages.MALFORMED_INSTRUCTION cd)) : False := by
  unfold parseDateTail at h
  dsimp only at h
  repeat' split at h
  all_goals first
    | exact Except.noConfusion h
    | (injection h with h1; first
        | exact JsThrow.noConfusion h1
        | (injection h1 with h2 h3; exact absurd h2 (by decide)))

lemma resolutionStage_not_malformed {words : List String} {t : String} {a : ℚ}
    {cur cd : String}
    (h : Part001.resolutionStage words t a cur =
      .error (.appError PaymentMessages.MALFORMED_INSTRUCTION cd)) : False := by
  unfold Part001.resolutionStage at h
  repeat' split at h
  all_goals first
    | exact Except.noConfusion h
    | exact parseDateTail_not_malformed h
    | (injection h with h1; first
        | exact JsThrow.noConfusion h1
        | (injection h1 with h2 h3; exact absurd h2 (by decide)))
/-- C1: for every instruction whose first three tokens pass the type, amount
and currency checks, the strict parser fails with MalformedInstruction when
the FROM or TO keyword is absent, and when a DEBIT has FROM not before TO or
a CREDIT has TO not before FROM; otherwise the ordering check passes and the
parser never reports MalformedInstruction. -/
theorem parser_route_ordering (instruction : String) (ty : String) (a : ℚ)
    (cur : String)
    (h0 : jsAt (upperOf (tokenize instruction)) 0 = some ty)
    (hty : ty = "DEBIT" ∨ ty = "CREDIT")
    (h1 : jsNumberU (jsAt (tokenize instruction) 1) = some a)
    (hpos : 0 < a) (hint : a.isInt = true)
    (h2 : jsAt (upperOf (tokenize instruction)) 2 = some cur)
    (hcur : cur = "USD" ∨ cur = "NGN" ∨ cur = "GBP" ∨ cur = "GHS") :
    ((fromIdxOf (tokenize instruction) = -1 ∨ toIdxOf (tokenize instruction) = -1) →
      Part001.parseInstruction instruction =
        .error (.appError PaymentMessages.MALFORMED_INSTRUCTION
          TRANSACTION_STATUS_CODE_MAPPING.MALFORMED_INSTRUCTION)) ∧
    (ty = "DEBIT" → ¬ fromIdxOf (tokenize instruction) < toIdxOf (tokenize instruction) →
      Part001.parseInstruction instruction =
        .error (.appError PaymentMessages.MALFORMED_INSTRUCTION
          TRANSACTION_STATUS_CODE_MAPPING.MALFORMED_INSTRUCTION)) ∧
    (ty = "CREDIT" → ¬ toIdxOf (tokenize instruction) < fromIdxOf (tokenize instruction) →
      Part001.parseInstruction instruction =
        .error (.appError PaymentMessages.MALFORMED_INSTRUCTION
          TRANSACTION_STATUS_CODE_MAPPING.MALFORMED_INSTRUCTION)) ∧
    (fromIdxOf (tokenize instruction) ≠ -1 → toIdxOf (tokenize instruction) ≠ -1 →
      (ty = "DEBIT" → fromIdxOf (tokenize instruction) < toIdxOf (tokenize instruction)) →
      (ty = "CREDIT" → toIdxOf (tokenize instruction) < fromIdxOf (tokenize instruction)) →
      ∀ cd, Part001.parseInstruction instruction ≠
        .error (.appError PaymentMessages.MALFORMED_INSTRUCTION cd)) := by
  have hred : Part001.parseInstruction instruction =
      Part001.routeStage (tokenize instruction) ty a cur :=
    part001_parseWords_lead h0 hty h1 hpos hint h2 hcur
  have hfromto : fromIdxOf (tokenize instruction) ≠ -1 →
      toIdxOf (tokenize instruction) ≠ -1 →
      fromIdxOf (tokenize instruction) ≠ toIdxOf (tokenize instruction) :=
    jsIndexOf_ne (upperOf (tokenize instruction)) "FROM" "TO" (by decide)
  refine ⟨?_, ?_, ?_, ?_⟩
  · intro habs
    rw [hred]
    unfold Part001.routeStage
    rw [if_pos]
    simp only [Part001.routeOrderFails, decide_eq_true_eq]
    rcases hty with h | h <;> simp [h] <;> tauto
  · intro hD hnot
    rw [hred]
    unfold Part001.routeStage
    rw [if_pos]
    simp only [Part001.routeOrderFails, decide_eq_true_eq]
    subst hD
    simp only [true_and]
    by_cases hf : fromIdxOf (tokenize instruction) = -1
    · left; left; exact hf
    · by_cases ht : toIdxOf (tokenize instruction) = -1
      · left; right; left; exact ht
      · have := hfromto hf ht
        left; right; right; omega
  · intro hC hnot
    rw [hred]
    unfold Part001.routeStage
    rw [if_pos]
    simp only [Part001.routeOrderFails, decide_eq_true_eq]
    subst hC
    simp only [true_and]
    by_cases hf : fromIdxOf (tokenize instruction) = -1
    · right; right; left; exact hf
    · by_cases ht : toIdxOf (tokenize instruction) = -1
      · right; left; exact ht
      · have := hfromto hf ht
        right; right; right; omega
  · intro hf ht hD hC cd hcontra
    rw [hred] at hcontra
    unfold Part001.routeStage at hcontra
    rw [if_neg] at hcontra
    · exact resolutionStage_not_malformed hcontra
    · simp only [Part001.routeOrderFails, decide_eq_true_eq]
      rcases hty with h | h <;> simp [h]
      · have := hD h
        omega
      · have := hC h
        omega

/-- Witness for parser_route_ordering: a DEBIT instruction with TO before
FROM passes the three leading checks and is rejected as
MalformedInstruction. -/
theorem parser_route_ordering_witness :
    Part001.parseInstruction "DEBIT 100 USD TO ACCOUNT A2 FROM ACCOUNT A1" =
      .error (.appError PaymentMessages.MALFORMED_INSTRUCTION
        TRANSACTION_STATUS_CODE_MAPPING.MALFORMED_INSTRUCTION) := by
  exact (parser_route_ordering "DEBIT 100 USD TO ACCOUNT A2 FROM ACCOUNT A1"
    "DEBIT" 100 "USD"
    (by with_unfolding_all rfl) (Or.inl rfl)
    (by with_unfolding_all rfl) (by norm_num) (by with_unfolding_all rfl)
    (by with_unfolding_all rfl) (Or.inl rfl)).2.1 rfl
    (by with_unfolding_all decide)
lemma parseDateTail_ok {words : List String} {t : String} {a : ℚ}
    {cur fa ta : String} {p : ParsedInstruction}
    (h : parseDateTail words t a cur fa ta = .ok p) :
    p.debit_account = fa ∧ p.credit_account = ta := by
  unfold parseDateTail at h
  dsimp only at h
  repeat' split at h
  all_goals first
    | exact Except.noConfusion h
    | (injection h with h1; subst h1; exact ⟨rfl, rfl⟩)

/-- C8: in the strict parser, a resolved FROM or TO identifier containing a
character outside the allow-list of letters, digits, dash, underscore and
dot makes parsing fail with InvalidInstructionFormat, and consequently every
successfully parsed instruction has both identifiers inside the
allow-list. -/
theorem account_charset :
    (∀ instruction ty a cur fa,
      jsAt (upperOf (tokenize instruction)) 0 = some ty →
      (ty = "DEBIT" ∨ ty = "CREDIT") →
      jsNumberU (jsAt (tokenize instruction) 1) = some a →
      0 < a → a.isInt = true →
      jsAt (upperOf (tokenize instruction)) 2 = some cur →
      (cur = "USD" ∨ cur = "NGN" ∨ cur = "GBP" ∨ cur = "GHS") →
      Part001.routeOrderFails ty (fromIdxOf (tokenize instruction))
        (toIdxOf (tokenize instruction)) = false →
      ((Part001.resolveAccount (tokenize instruction)
            (fromIdxOf (tokenize instruction)) = some fa ∧
          Part001.isValidAccount fa = false) ∨
        (Part001.resolveAccount (tokenize instruction)
            (toIdxOf (tokenize instruction)) = some fa ∧
          Part001.isValidAccount fa = false)) →
      Part001.parseInstruction instruction =
        .error (.appError PaymentMessages.INVALID_INSTRUCTION_FORMAT
          TRANSACTION_STATUS_CODE_MAPPING.MALFORMED_INSTRUCTION)) ∧
    (∀ instruction p, Part001.parseInstruction instruction = .ok p →
      Part001.isValidAccount p.debit_account = true ∧
      Part001.isValidAccount p.credit_account = true) := by
  constructor
  · intro instruction ty a cur fa h0 hty h1 hpos hint h2 hcur hroute hinv
    rw [show Part001.parseInstruction instruction =
        Part001.routeStage (tokenize instruction) ty a cur from
      part001_parseWords_lead h0 hty h1 hpos hint h2 hcur]
    unfold Part001.routeStage
    rw [if_neg (by simp [hroute])]
    unfold Part001.resolutionStage
    rcases hinv with ⟨hres, hbad⟩ | ⟨hres, hbad⟩
    · rw [if_pos (by rw [hres]; simp [Part001.resolvedInvalid, hbad])]
    · by_cases hfirst : Part001.resolvedInvalid (Part001.resolveAccount
          (tokenize instruction) (fromIdxOf (tokenize instruction))) = true
      · rw [if_pos hfirst]
      · rw [if_neg hfirst,
          if_pos (by rw [hres]; simp [Part001.resolvedInvalid, hbad])]
  · intro instruction p hok
    unfold Part001.parseInstruction Part001.parseWords at hok
    dsimp only at hok
    repeat' split at hok
    all_goals try exact Except.noConfusion hok
    unfold Part001.routeStage at hok
    split at hok
    · exact Except.noConfusion hok
    · unfold Part001.resolutionStage at hok
      repeat' split at hok
      all_goals try exact Except.noConfusion hok
      obtain ⟨hd, hc⟩ := parseDateTail_ok hok
      rw [hd, hc]
      constructor <;> simp_all [Part001.resolvedInvalid]

/-- Witness for account_charset: an exclamation mark in the FROM identifier
is rejected as InvalidInstructionFormat. -/
theorem account_charset_witness :
    Part001.parseInstruction "DEBIT 100 USD FROM ACCOUNT A! TO ACCOUNT A2" =
      .error (.appError PaymentMessages.INVALID_INSTRUCTION_FORMAT
        TRANSACTION_STATUS_CODE_MAPPING.MALFORMED_INSTRUCTION) :=
  account_charset.1 "DEBIT 100 USD FROM ACCOUNT A! TO ACCOUNT A2"
    "DEBIT" 100 "USD" "A!"
    (by with_unfolding_all rfl) (Or.inl rfl)
    (by with_unfolding_all rfl) (by norm_num) (by with_unfolding_all rfl)
    (by with_unfolding_all rfl) (Or.inl rfl)
    (by with_unfolding_all rfl)
    (Or.inl ⟨by with_unfolding_all rfl, by with_unfolding_all rfl⟩)
/-- C4 (amended): for an instruction reaching the date stage, with ON absent
the parse succeeds with a null executeBy; with ON present and followed by a
token, the parse succeeds past the date check exactly when the token passes
the UTC round-trip check (recording the raw token) and fails with
InvalidDateFormat otherwise; with ON as the final token the parse fails with
an unclassified TypeError instead.  2025-02-30 and 2023-02-29 fail the
round-trip check and 2024-02-29 passes it. -/
theorem on_date_validation (instruction : String) (ty : String) (a : ℚ)
    (cur fa ta : String)
    (h0 : jsAt (upperOf (tokenize instruction)) 0 = some ty)
    (hty : ty = "DEBIT" ∨ ty = "CREDIT")
    (h1 : jsNumberU (jsAt (tokenize instruction) 1) = some a)
    (hpos : 0 < a) (hint : a.isInt = true)
    (h2 : jsAt (upperOf (tokenize instruction)) 2 = some cur)
    (hcur : cur = "USD" ∨ cur = "NGN" ∨ cur = "GBP" ∨ cur = "GHS")
    (hfa : fromAccountOf (tokenize instruction) = some fa)
    (hta : toAccountOf (tokenize instruction) = some ta)
    (hne : fa ≠ ta) :
    (onIdxOf (tokenize instruction) = -1 →
      parseInstruction instruction = .ok ⟨ty, a, cur, fa, ta, none⟩) ∧
    (∀ tok, onIdxOf (tokenize instruction) ≠ -1 →
      jsAt (tokenize instruction) (onIdxOf (tokenize instruction) + 1) = some tok →
      (dateTokenCheck tok = true →
        parseInstruction instruction = .ok ⟨ty, a, cur, fa, ta, some tok⟩) ∧
      (dateTokenCheck tok = false →
        parseInstruction instruction =
          .error (.appError PaymentMessages.INVALID_DATE_FORMAT
            TRANSACTION_STATUS_CODE_MAPPING.INVALID_DATE_FORMAT))) ∧
    (onIdxOf (tokenize instruction) ≠ -1 →
      jsAt (tokenize instruction) (onIdxOf (tokenize instruction) + 1) = none →
      parseInstruction instruction =
        .error (.typeError "Cannot read properties of undefined (reading split)")) ∧
    (dateTokenCheck "2025-02-30" = false ∧ dateTokenCheck "2024-02-29" = true ∧
      dateTokenCheck "2023-02-29" = false) := by
  have hredD : parseInstruction instruction =
      parseDateTail (tokenize instruction) ty a cur fa ta := by
    rw [show parseInstruction instruction =
        accountStage (tokenize instruction) ty a cur from
      parseWords_lead h0 hty h1 hpos hint h2 hcur]
    unfold accountStage
    rw [hfa, hta]
    dsimp only
    rw [if_neg hne]
  refine ⟨?_, ?_, ?_, by with_unfolding_all rfl, by with_unfolding_all rfl,
    by with_unfolding_all rfl⟩
  · intro hno
    have hno2 : jsIndexOf (List.map jsUpper (tokenize instruction)) "ON" = -1 :=
      hno
    rw [hredD]
    unfold parseDateTail
    dsimp only
    rw [if_pos hno2]
  · intro tok hon hat
    have hon2 : ¬ jsIndexOf (List.map jsUpper (tokenize instruction)) "ON" = -1 :=
      hon
    have hat2 : jsAt (tokenize instruction)
        (jsIndexOf (List.map jsUpper (tokenize instruction)) "ON" + 1) =
          some tok := hat
    constructor
    · intro hck
      rw [hredD]
      unfold parseDateTail
      dsimp only
      rw [if_neg hon2, hat2]
      dsimp only
      rw [if_pos hck]
    · intro hck
      rw [hredD]
      unfold parseDateTail
      dsimp only
      rw [if_neg hon2, hat2]
      dsimp only
      rw [if_neg (by simp [hck])]
  · intro hon hat
    have hon2 : ¬ jsIndexOf (List.map jsUpper (tokenize instruction)) "ON" = -1 :=
      hon
    have hat2 : jsAt (tokenize instruction)
        (jsIndexOf (List.map jsUpper (tokenize instruction)) "ON" + 1) =
          (none : Option String) := hat
    rw [hredD]
    unfold parseDateTail
    dsimp only
    rw [if_neg hon2, hat2]

/-- C4 counterexample: with ON as the final token the permissive parser
throws the TypeError of calling split on undefined, not the classified
InvalidDateFormat error the claim requires for every instruction containing
ON that lacks a valid date token. -/
theorem on_date_validation_counterexample :
    parseInstruction "DEBIT 100 USD FROM ACCOUNT A1 TO ACCOUNT A2 ON" =
      .error (.typeError "Cannot read properties of undefined (reading split)") ∧
    parseInstruction "DEBIT 100 USD FROM ACCOUNT A1 TO ACCOUNT A2 ON" ≠
      .error (.appError PaymentMessages.INVALID_DATE_FORMAT
        TRANSACTION_STATUS_CODE_MAPPING.INVALID_DATE_FORMAT) := by
  have he : parseInstruction "DEBIT 100 USD FROM ACCOUNT A1 TO ACCOUNT A2 ON" =
      .error (.typeError "Cannot read properties of undefined (reading split)") := by
    with_unfolding_all rfl
  refine ⟨he, ?_⟩
  intro h
  rw [he] at h
  injection h with h1
  exact JsThrow.noConfusion h1

/-- Witness for on_date_validation: the leap date 2024-02-29 passes the
round-trip check and the parse records it. -/
theorem on_date_validation_witness :
    parseInstruction "DEBIT 100 USD FROM ACCOUNT A1 TO ACCOUNT A2 ON 2024-02-29" =
      .ok ⟨"DEBIT", 100, "USD", "A1", "A2", some "2024-02-29"⟩ := by
  exact (((on_date_validation
      "DEBIT 100 USD FROM ACCOUNT A1 TO ACCOUNT A2 ON 2024-02-29"
      "DEBIT" 100 "USD" "A1" "A2"
      (by with_unfolding_all rfl) (Or.inl rfl) (by with_unfolding_all rfl)
      (by norm_num) (by with_unfolding_all rfl) (by with_unfolding_all rfl)
      (Or.inl rfl) (by with_unfolding_all rfl) (by with_unfolding_all rfl)
      (by decide)).2.1 "2024-02-29"
      (by with_unfolding_all decide) (by with_unfolding_all rfl)).1
    (by with_unfolding_all rfl))
